import Mathlib

/-!
Verification of the Phelps Holdings deal analyzer core.

The repository has two source variants of the same core:
`deal_analyzer.py` (CLI variant) and `app.py` (dashboard variant).
Numbers are modelled as exact rationals (`ℚ`); the IEEE value
`float("inf")` that the code uses for DSCR / cash-on-cash with no debt
(resp. no down payment) is modelled with `WithTop ℚ`, whose `⊤` orders
above every rational exactly as `inf` orders above every float.
Python float literals are embedded as the decimal rationals they denote
in the source text (`0.035 = 7/200`, `0.80 = 4/5`, `1.25 = 5/4`,
`1.10 = 11/10`).
-/

/-- `sba_guarantee_fee` from `deal_analyzer.py`: `0.035 * guaranteed_amount`. -/
def sba_guarantee_fee (guaranteed_amount : ℚ) : ℚ :=
  (7/200) * guaranteed_amount

/-- `annual_payment` from `deal_analyzer.py`: level annual payment.
Returns `0` for non-positive principal, straight-line `principal / years`
for a zero rate, else the annuity formula
`principal * (r * (1+r)^n) / ((1+r)^n - 1)`. -/
def annual_payment (principal annual_rate : ℚ) (years : ℕ) : ℚ :=
  if principal ≤ 0 then 0
  else if annual_rate = 0 then principal / (years : ℚ)
  else principal * (annual_rate * (1 + annual_rate) ^ years) /
      ((1 + annual_rate) ^ years - 1)

/-- The `DealInputs` dataclass of `deal_analyzer.py`. -/
structure DealInputs where
  purchase_price : ℚ
  sde : ℚ
  management_salary : ℚ
  seller_note_pct : ℚ
  seller_note_interest : ℚ
  seller_note_term : ℕ
  bank_interest : ℚ
  bank_term : ℕ
  working_cap : ℚ
  sba_guarantee_pct : ℚ
deriving DecidableEq

/-- The dict returned by `compute` in `deal_analyzer.py`, as a record.
`dscr` and `coc` live in `WithTop ℚ` because the code yields
`float("inf")` when total debt (resp. down payment) is not positive. -/
structure EvalResult where
  normalized_earnings : ℚ
  seller_note : ℚ
  bank_base_loan : ℚ
  fee : ℚ
  bank_loan : ℚ
  bank_annual : ℚ
  seller_annual : ℚ
  total_annual_debt : ℚ
  dscr : WithTop ℚ
  after_debt : ℚ
  coc : WithTop ℚ
deriving DecidableEq

/-- `compute` from `deal_analyzer.py`, line for line. -/
def compute (deal : DealInputs) (down_payment : ℚ) (stress_mult : ℚ) :
    EvalResult :=
  let normalized_earnings := (deal.sde - deal.management_salary) * stress_mult
  let seller_note := deal.purchase_price * deal.seller_note_pct
  let bank_base_loan0 := deal.purchase_price - down_payment - seller_note
  let bank_base_loan := if bank_base_loan0 < 0 then 0 else bank_base_loan0
  let guaranteed_amount := bank_base_loan * deal.sba_guarantee_pct
  let fee := sba_guarantee_fee guaranteed_amount
  let bank_loan := bank_base_loan + deal.working_cap + fee
  let bank_annual := annual_payment bank_loan deal.bank_interest deal.bank_term
  let seller_annual :=
    if 0 < seller_note then
      annual_payment seller_note deal.seller_note_interest deal.seller_note_term
    else 0
  let total_annual_debt := bank_annual + seller_annual
  let dscr : WithTop ℚ :=
    if 0 < total_annual_debt then
      ((normalized_earnings / total_annual_debt : ℚ) : WithTop ℚ)
    else ⊤
  let after_debt := normalized_earnings - total_annual_debt
  let coc : WithTop ℚ :=
    if 0 < down_payment then
      ((after_debt / down_payment * 100 : ℚ) : WithTop ℚ)
    else ⊤
  { normalized_earnings := normalized_earnings
    seller_note := seller_note
    bank_base_loan := bank_base_loan
    fee := fee
    bank_loan := bank_loan
    bank_annual := bank_annual
    seller_annual := seller_annual
    total_annual_debt := total_annual_debt
    dscr := dscr
    after_debt := after_debt
    coc := coc }

/-- One pass of the bisection loop body in `min_down_for_target_dscr`:
`mid = (lo+hi)/2`; if DSCR at `mid` meets the target, `hi := mid`,
else `lo := mid`.  The state is the pair `(lo, hi)`. -/
def bisectStep (deal : DealInputs) (target_dscr stress_mult : ℚ)
    (s : ℚ × ℚ) : ℚ × ℚ :=
  let mid := (s.1 + s.2) / 2
  if ((target_dscr : WithTop ℚ)) ≤ (compute deal mid stress_mult).dscr then
    (s.1, mid)
  else (mid, s.2)

/-- `k` passes of the bisection loop (`for _ in range(k)`). -/
def bisectIter (deal : DealInputs) (target_dscr stress_mult : ℚ) :
    ℕ → ℚ × ℚ → ℚ × ℚ
  | 0, s => s
  | k + 1, s =>
      bisectIter deal target_dscr stress_mult k
        (bisectStep deal target_dscr stress_mult s)

/-- `min_down_for_target_dscr` from `deal_analyzer.py`: binary search for
the minimum down payment hitting the DSCR target, over
`[0, 0.80 * purchase_price]`; `none` models Python's `None`. -/
def min_down_for_target_dscr (deal : DealInputs)
    (target_dscr stress_mult : ℚ) : Option ℚ :=
  let lo : ℚ := 0
  let hi : ℚ := deal.purchase_price * (4/5)
  if (compute deal hi stress_mult).dscr < ((target_dscr : WithTop ℚ)) then
    none
  else if ((target_dscr : WithTop ℚ)) ≤ (compute deal lo stress_mult).dscr then
    some 0
  else
    some (bisectIter deal target_dscr stress_mult 60 (lo, hi)).2

/-- `verdict` from `deal_analyzer.py`.  The string literals are embedded
byte-for-byte as they appear in the source file (the emoji suffixes are
stored mojibake-encoded there). -/
def verdict (dscr : WithTop ℚ) : String :=
  if ((5/4 : ℚ) : WithTop ℚ) ≤ dscr then "SBA-Ready ðŸŸ¢"
  else if ((11/10 : ℚ) : WithTop ℚ) ≤ dscr then "Tight but possible ðŸŸ¡"
  else "Risky ðŸ”´"

namespace App

/-- `sba_guarantee_fee` from `app.py` (identical formula). -/
def sba_guarantee_fee (guaranteed_amount : ℚ) : ℚ :=
  (7/200) * guaranteed_amount

/-- `annual_payment` from `app.py` (same branches as the CLI variant). -/
def annual_payment (principal annual_rate : ℚ) (years : ℕ) : ℚ :=
  if principal ≤ 0 then 0
  else if annual_rate = 0 then principal / (years : ℚ)
  else principal * (annual_rate * (1 + annual_rate) ^ years) /
      ((1 + annual_rate) ^ years - 1)

/-- The dict returned by `compute` in `app.py`: same fields as the CLI
variant except that the total is keyed `total_debt` and there is no
cash-on-cash field. -/
structure Result where
  normalized_earnings : ℚ
  seller_note : ℚ
  bank_base_loan : ℚ
  fee : ℚ
  bank_loan : ℚ
  bank_annual : ℚ
  seller_annual : ℚ
  total_debt : ℚ
  dscr : WithTop ℚ
  after_debt : ℚ
deriving DecidableEq

/-- `compute` from `app.py`; it takes the deal fields positionally and
clamps the base loan with `max(bank_base_loan, 0.0)`. -/
def compute (purchase_price sde management_salary down_payment
    seller_note_pct seller_note_interest : ℚ) (seller_note_term : ℕ)
    (bank_interest : ℚ) (bank_term : ℕ)
    (working_cap sba_guarantee_pct stress_mult : ℚ) : Result :=
  let normalized_earnings := (sde - management_salary) * stress_mult
  let seller_note := purchase_price * seller_note_pct
  let bank_base_loan0 := purchase_price - down_payment - seller_note
  let bank_base_loan := max bank_base_loan0 0
  let guaranteed_amount := bank_base_loan * sba_guarantee_pct
  let fee := sba_guarantee_fee guaranteed_amount
  let bank_loan := bank_base_loan + working_cap + fee
  let bank_annual := annual_payment bank_loan bank_interest bank_term
  let seller_annual :=
    if 0 < seller_note then
      annual_payment seller_note seller_note_interest seller_note_term
    else 0
  let total_debt := bank_annual + seller_annual
  let dscr : WithTop ℚ :=
    if 0 < total_debt then
      ((normalized_earnings / total_debt : ℚ) : WithTop ℚ)
    else ⊤
  let after_debt := normalized_earnings - total_debt
  { normalized_earnings := normalized_earnings
    seller_note := seller_note
    bank_base_loan := bank_base_loan
    fee := fee
    bank_loan := bank_loan
    bank_annual := bank_annual
    seller_annual := seller_annual
    total_debt := total_debt
    dscr := dscr
    after_debt := after_debt }

/-- `dscr_at` from `app.py`'s `min_down_for_target`. -/
def dscr_at (purchase_price sde management_salary
    seller_note_pct seller_note_interest : ℚ) (seller_note_term : ℕ)
    (bank_interest : ℚ) (bank_term : ℕ)
    (working_cap sba_guarantee_pct stress_mult down : ℚ) : WithTop ℚ :=
  (compute purchase_price sde management_salary down
    seller_note_pct seller_note_interest seller_note_term
    bank_interest bank_term working_cap sba_guarantee_pct stress_mult).dscr

/-- The bisection loop body of `min_down_for_target` in `app.py`. -/
def bisectStep (purchase_price sde management_salary
    seller_note_pct seller_note_interest : ℚ) (seller_note_term : ℕ)
    (bank_interest : ℚ) (bank_term : ℕ)
    (working_cap sba_guarantee_pct target_dscr stress_mult : ℚ)
    (s : ℚ × ℚ) : ℚ × ℚ :=
  let mid := (s.1 + s.2) / 2
  if ((target_dscr : WithTop ℚ)) ≤
      dscr_at purchase_price sde management_salary
        seller_note_pct seller_note_interest seller_note_term
        bank_interest bank_term working_cap sba_guarantee_pct
        stress_mult mid then
    (s.1, mid)
  else (mid, s.2)

/-- `k` passes of `app.py`'s bisection loop. -/
def bisectIter (purchase_price sde management_salary
    seller_note_pct seller_note_interest : ℚ) (seller_note_term : ℕ)
    (bank_interest : ℚ) (bank_term : ℕ)
    (working_cap sba_guarantee_pct target_dscr stress_mult : ℚ) :
    ℕ → ℚ × ℚ → ℚ × ℚ
  | 0, s => s
  | k + 1, s =>
      bisectIter purchase_price sde management_salary
        seller_note_pct seller_note_interest seller_note_term
        bank_interest bank_term working_cap sba_guarantee_pct
        target_dscr stress_mult k
        (bisectStep purchase_price sde management_salary
          seller_note_pct seller_note_interest seller_note_term
          bank_interest bank_term working_cap sba_guarantee_pct
          target_dscr stress_mult s)

/-- `min_down_for_target` from `app.py`. -/
def min_down_for_target (purchase_price sde management_salary
    seller_note_pct seller_note_interest : ℚ) (seller_note_term : ℕ)
    (bank_interest : ℚ) (bank_term : ℕ)
    (working_cap sba_guarantee_pct target_dscr stress_mult : ℚ) :
    Option ℚ :=
  let lo : ℚ := 0
  let hi : ℚ := purchase_price * (4/5)
  if dscr_at purchase_price sde management_salary
      seller_note_pct seller_note_interest seller_note_term
      bank_interest bank_term working_cap sba_guarantee_pct
      stress_mult hi < ((target_dscr : WithTop ℚ)) then
    none
  else if ((target_dscr : WithTop ℚ)) ≤
      dscr_at purchase_price sde management_salary
        seller_note_pct seller_note_interest seller_note_term
        bank_interest bank_term working_cap sba_guarantee_pct
        stress_mult lo then
    some 0
  else
    some (bisectIter purchase_price sde management_salary
      seller_note_pct seller_note_interest seller_note_term
      bank_interest bank_term working_cap sba_guarantee_pct
      target_dscr stress_mult 60 (lo, hi)).2

end App

/-- Division-instrumented `annual_payment`: the same branch structure as
the source, but each division is checked and `none` is returned when its
denominator is zero (Python would raise `ZeroDivisionError`). -/
def annual_payment_checked (principal annual_rate : ℚ) (years : ℕ) :
    Option ℚ :=
  if principal ≤ 0 then some 0
  else if annual_rate = 0 then
    (if (years : ℚ) = 0 then none else some (principal / (years : ℚ)))
  else if (1 + annual_rate) ^ years - 1 = 0 then none
  else some (principal * (annual_rate * (1 + annual_rate) ^ years) /
      ((1 + annual_rate) ^ years - 1))

/-- Division-instrumented `compute`: identical data flow to `compute`,
with both `annual_payment` calls replaced by their checked versions.
The `dscr` and `coc` divisions carry their own structural guards
(`total_annual_debt > 0`, `down_payment > 0`) in the source and so need
no check. -/
def compute_checked (deal : DealInputs) (down_payment : ℚ)
    (stress_mult : ℚ) : Option EvalResult :=
  let normalized_earnings := (deal.sde - deal.management_salary) * stress_mult
  let seller_note := deal.purchase_price * deal.seller_note_pct
  let bank_base_loan0 := deal.purchase_price - down_payment - seller_note
  let bank_base_loan := if bank_base_loan0 < 0 then 0 else bank_base_loan0
  let guaranteed_amount := bank_base_loan * deal.sba_guarantee_pct
  let fee := sba_guarantee_fee guaranteed_amount
  let bank_loan := bank_base_loan + deal.working_cap + fee
  match annual_payment_checked bank_loan deal.bank_interest deal.bank_term with
  | none => none
  | some bank_annual =>
    match (if 0 < seller_note then
        annual_payment_checked seller_note deal.seller_note_interest
          deal.seller_note_term
      else some 0) with
    | none => none
    | some seller_annual =>
      let total_annual_debt := bank_annual + seller_annual
      let dscr : WithTop ℚ :=
        if 0 < total_annual_debt then
          ((normalized_earnings / total_annual_debt : ℚ) : WithTop ℚ)
        else ⊤
      let after_debt := normalized_earnings - total_annual_debt
      let coc : WithTop ℚ :=
        if 0 < down_payment then
          ((after_debt / down_payment * 100 : ℚ) : WithTop ℚ)
        else ⊤
      some
        { normalized_earnings := normalized_earnings
          seller_note := seller_note
          bank_base_loan := bank_base_loan
          fee := fee
          bank_loan := bank_loan
          bank_annual := bank_annual
          seller_annual := seller_annual
          total_annual_debt := total_annual_debt
          dscr := dscr
          after_debt := after_debt
          coc := coc }

/-! Named forms of the local variables of `compute`, used to reason about
its fields one at a time.  Each is definitionally equal to the
corresponding `let` in `compute` (see the `compute_*` lemmas below). -/

/-- The `seller_note` local of `compute`. -/
def sellerNoteOf (deal : DealInputs) : ℚ :=
  deal.purchase_price * deal.seller_note_pct

/-- The clamped `bank_base_loan` local of `compute`. -/
def bankBaseLoanOf (deal : DealInputs) (down_payment : ℚ) : ℚ :=
  let b0 := deal.purchase_price - down_payment - sellerNoteOf deal
  if b0 < 0 then 0 else b0

/-- The `bank_loan` local of `compute`. -/
def bankLoanOf (deal : DealInputs) (down_payment : ℚ) : ℚ :=
  bankBaseLoanOf deal down_payment + deal.working_cap +
    sba_guarantee_fee (bankBaseLoanOf deal down_payment * deal.sba_guarantee_pct)

/-- The `bank_annual` local of `compute`. -/
def bankAnnualOf (deal : DealInputs) (down_payment : ℚ) : ℚ :=
  annual_payment (bankLoanOf deal down_payment) deal.bank_interest deal.bank_term

/-- The `seller_annual` local of `compute` (independent of the down payment). -/
def sellerAnnualOf (deal : DealInputs) : ℚ :=
  if 0 < sellerNoteOf deal then
    annual_payment (sellerNoteOf deal) deal.seller_note_interest
      deal.seller_note_term
  else 0

/-- The `total_annual_debt` local of `compute`. -/
def totalDebtOf (deal : DealInputs) (down_payment : ℚ) : ℚ :=
  bankAnnualOf deal down_payment + sellerAnnualOf deal

/-- The `normalized_earnings` local of `compute`. -/
def normEarningsOf (deal : DealInputs) (stress_mult : ℚ) : ℚ :=
  (deal.sde - deal.management_salary) * stress_mult

/-! Concrete deals used as test inputs. -/

/-- A deal whose normalized earnings are negative: price 100, SDE 0,
management salary 10, no seller note, zero-rate 1-year bank loan. -/
def dealA : DealInputs := ⟨100, 0, 10, 0, 0, 1, 0, 1, 0, 0⟩

/-- Like `dealA` but with SDE 20, so normalized earnings are `+10`. -/
def dealB : DealInputs := ⟨100, 20, 10, 0, 0, 1, 0, 1, 0, 0⟩

/-- A fully-financed deal carrying working capital: price 100, no seller
note, zero-rate 10-year bank loan, working capital 50. -/
def dealC : DealInputs := ⟨100, 0, 0, 0, 0, 1, 0, 10, 50, 0⟩

/-- The all-zero deal (terms of one year so the term fields are positive). -/
def dealD : DealInputs := ⟨0, 0, 0, 0, 0, 1, 0, 1, 0, 0⟩

/-! ## Field lemmas for `compute` -/

lemma compute_seller_note (deal : DealInputs) (d m : ℚ) :
    (compute deal d m).seller_note = sellerNoteOf deal := rfl

lemma compute_bank_base_loan (deal : DealInputs) (d m : ℚ) :
    (compute deal d m).bank_base_loan = bankBaseLoanOf deal d := rfl

lemma compute_bank_loan (deal : DealInputs) (d m : ℚ) :
    (compute deal d m).bank_loan = bankLoanOf deal d := rfl

lemma compute_bank_annual (deal : DealInputs) (d m : ℚ) :
    (compute deal d m).bank_annual = bankAnnualOf deal d := rfl

lemma compute_seller_annual (deal : DealInputs) (d m : ℚ) :
    (compute deal d m).seller_annual = sellerAnnualOf deal := rfl

lemma compute_total_annual_debt (deal : DealInputs) (d m : ℚ) :
    (compute deal d m).total_annual_debt = totalDebtOf deal d := rfl

lemma compute_dscr (deal : DealInputs) (d m : ℚ) :
    (compute deal d m).dscr =
      (if 0 < totalDebtOf deal d then
        ((normEarningsOf deal m / totalDebtOf deal d : ℚ) : WithTop ℚ)
      else ⊤) := rfl

/-! ## Basic facts about `annual_payment` -/

lemma annual_payment_nonneg (p r : ℚ) (n : ℕ) (hr : 0 ≤ r) :
    0 ≤ annual_payment p r n := by
  unfold annual_payment
  split_ifs with h0 hr0
  · exact le_refl 0
  · exact div_nonneg (le_of_lt (not_le.mp h0)) (Nat.cast_nonneg n)
  · have h1r : (1:ℚ) ≤ (1 + r) ^ n := one_le_pow₀ (by linarith)
    exact div_nonneg
      (mul_nonneg (le_of_lt (not_le.mp h0))
        (mul_nonneg hr (pow_nonneg (by linarith) n)))
      (by linarith)

lemma annual_payment_mono (r : ℚ) (n : ℕ) (hr : 0 ≤ r) {p1 p2 : ℚ}
    (h : p1 ≤ p2) : annual_payment p1 r n ≤ annual_payment p2 r n := by
  rcases le_or_lt p2 0 with h2 | h2
  · have h1 : p1 ≤ 0 := le_trans h h2
    simp [annual_payment, h1, h2]
  · rcases le_or_lt p1 0 with h1 | h1
    · have e1 : annual_payment p1 r n = 0 := by simp [annual_payment, h1]
      rw [e1]
      exact annual_payment_nonneg p2 r n hr
    · unfold annual_payment
      rw [if_neg (not_le.mpr h1), if_neg (not_le.mpr h2)]
      by_cases hr0 : r = 0
      · rw [if_pos hr0, if_pos hr0, div_eq_mul_inv, div_eq_mul_inv]
        exact mul_le_mul_of_nonneg_right h (inv_nonneg.mpr (Nat.cast_nonneg n))
      · rw [if_neg hr0, if_neg hr0, div_eq_mul_inv, div_eq_mul_inv]
        have h1r : (1:ℚ) ≤ (1 + r) ^ n := one_le_pow₀ (by linarith)
        refine mul_le_mul_of_nonneg_right
          (mul_le_mul_of_nonneg_right h
            (mul_nonneg hr (pow_nonneg (by linarith) n)))
          (inv_nonneg.mpr (by linarith))

/-! ## C5: debt service is invariant to the stress multiplier -/

/-- C5. For every deal, down payment and any two stress multipliers, the
two evaluations agree on `seller_note`, `bank_base_loan`, `fee`,
`bank_loan`, `bank_annual`, `seller_annual` and `total_annual_debt`:
the stress multiplier touches only the earnings side. -/
theorem compute_stress_invariant (deal : DealInputs) (d m1 m2 : ℚ) :
    (compute deal d m1).seller_note = (compute deal d m2).seller_note ∧
    (compute deal d m1).bank_base_loan = (compute deal d m2).bank_base_loan ∧
    (compute deal d m1).fee = (compute deal d m2).fee ∧
    (compute deal d m1).bank_loan = (compute deal d m2).bank_loan ∧
    (compute deal d m1).bank_annual = (compute deal d m2).bank_annual ∧
    (compute deal d m1).seller_annual = (compute deal d m2).seller_annual ∧
    (compute deal d m1).total_annual_debt =
      (compute deal d m2).total_annual_debt :=
  ⟨rfl, rfl, rfl, rfl, rfl, rfl, rfl⟩

/-! ## C2: the solver returns `none` iff 80% down misses the target -/

/-- C2. `min_down_for_target_dscr` returns `none` (Python `None`) exactly
when the DSCR at a down payment of 80% of the purchase price is below the
target; in every other case it returns a number. -/
theorem min_down_none_iff (deal : DealInputs) (t m : ℚ) :
    min_down_for_target_dscr deal t m = none ↔
      (compute deal (deal.purchase_price * (4/5)) m).dscr <
        ((t : ℚ) : WithTop ℚ) := by
  simp only [min_down_for_target_dscr]
  split_ifs with h1 h2
  · simp [h1]
  · simp [h1]
  · simp [h1]

/-! ## C1: DSCR monotonicity in the down payment -/

lemma bankBaseLoan_nonneg (deal : DealInputs) (d : ℚ) :
    0 ≤ bankBaseLoanOf deal d := by
  simp only [bankBaseLoanOf]
  split_ifs with h
  · exact le_refl 0
  · exact not_lt.mp h

lemma bankBaseLoan_antitone (deal : DealInputs) {d1 d2 : ℚ} (h : d1 ≤ d2) :
    bankBaseLoanOf deal d2 ≤ bankBaseLoanOf deal d1 := by
  simp only [bankBaseLoanOf]
  split_ifs with h2 h1 h1 <;> [exact le_refl 0; linarith; linarith; linarith]

lemma bankLoan_antitone (deal : DealInputs)
    (hg : 0 ≤ deal.sba_guarantee_pct) {d1 d2 : ℚ} (h : d1 ≤ d2) :
    bankLoanOf deal d2 ≤ bankLoanOf deal d1 := by
  have hb := bankBaseLoan_antitone deal h
  have hm := mul_le_mul_of_nonneg_right hb hg
  unfold bankLoanOf sba_guarantee_fee
  linarith

lemma totalDebt_antitone (deal : DealInputs)
    (hg : 0 ≤ deal.sba_guarantee_pct) (hbi : 0 ≤ deal.bank_interest)
    {d1 d2 : ℚ} (h : d1 ≤ d2) :
    totalDebtOf deal d2 ≤ totalDebtOf deal d1 :=
  add_le_add_right
    (annual_payment_mono _ _ hbi (bankLoan_antitone deal hg h)) _

/-- C1, counterexample.  On `dealA` normalized earnings are negative
(`(0 − 10) × 1 = −10`), and raising the down payment from 0 to 50 halves
the annual debt from 100 to 50, dropping the DSCR from −1/10 to −1/5:
the DSCR of `compute` is not monotone in the down payment for every
deal and stress multiplier. -/
theorem dscr_monotone_counterexample :
    (0:ℚ) ≤ 50 ∧
      ¬ (compute dealA 0 1).dscr ≤ (compute dealA 50 1).dscr := by
  refine ⟨by norm_num, ?_⟩
  have e1 : (compute dealA 0 1).dscr = ((-(1/10) : ℚ) : WithTop ℚ) := by
    norm_num [compute, annual_payment, sba_guarantee_fee, dealA]
  have e2 : (compute dealA 50 1).dscr = ((-(1/5) : ℚ) : WithTop ℚ) := by
    norm_num [compute, annual_payment, sba_guarantee_fee, dealA]
  rw [e1, e2, WithTop.coe_le_coe]
  norm_num

/-- C1, amended.  For every deal with a non-negative SBA guarantee
percentage and a non-negative bank interest rate, and every stress
multiplier under which normalized earnings
`(sde − managementSalary) × stress` are non-negative, the DSCR of
`compute` is monotonically non-decreasing in the down payment. -/
theorem dscr_monotone_in_down (deal : DealInputs) (m : ℚ)
    (hg : 0 ≤ deal.sba_guarantee_pct) (hbi : 0 ≤ deal.bank_interest)
    (hne : 0 ≤ (deal.sde - deal.management_salary) * m)
    {d1 d2 : ℚ} (h : d1 ≤ d2) :
    (compute deal d1 m).dscr ≤ (compute deal d2 m).dscr := by
  rw [compute_dscr, compute_dscr]
  have hT : totalDebtOf deal d2 ≤ totalDebtOf deal d1 :=
    totalDebt_antitone deal hg hbi h
  by_cases h2 : 0 < totalDebtOf deal d2
  · have h1 : 0 < totalDebtOf deal d1 := lt_of_lt_of_le h2 hT
    rw [if_pos h1, if_pos h2, WithTop.coe_le_coe]
    exact div_le_div_of_nonneg_left hne h2 hT
  · rw [if_neg h2]
    exact le_top

/-- C1, witness for the amended theorem: on `dealB` (normalized earnings
`+10`) the DSCR at down payment 0 is at most the DSCR at 50. -/
theorem dscr_monotone_in_down_witness :
    (compute dealB 0 1).dscr ≤ (compute dealB 50 1).dscr :=
  dscr_monotone_in_down dealB 1 (by norm_num [dealB]) (by norm_num [dealB])
    (by norm_num [dealB]) (by norm_num)

/-! ## C3 and C10: bisection loop invariants -/

lemma bisectIter_hi_feasible (deal : DealInputs) (t m : ℚ) :
    ∀ (k : ℕ) (s : ℚ × ℚ),
      ((t : ℚ) : WithTop ℚ) ≤ (compute deal s.2 m).dscr →
      ((t : ℚ) : WithTop ℚ) ≤
        (compute deal (bisectIter deal t m k s).2 m).dscr := by
  intro k
  induction k with
  | zero => intro s hs; exact hs
  | succ n ih =>
    intro s hs
    rw [bisectIter]
    refine ih _ ?_
    simp only [bisectStep]
    split_ifs with hmid
    · exact hmid
    · exact hs

lemma bisectIter_bounds (deal : DealInputs) (t m B : ℚ) :
    ∀ (k : ℕ) (s : ℚ × ℚ), 0 ≤ s.1 → s.1 ≤ s.2 → s.2 ≤ B →
      0 ≤ (bisectIter deal t m k s).1 ∧
      (bisectIter deal t m k s).1 ≤ (bisectIter deal t m k s).2 ∧
      (bisectIter deal t m k s).2 ≤ B := by
  intro k
  induction k with
  | zero => intro s h0 h1 h2; exact ⟨h0, h1, h2⟩
  | succ n ih =>
    intro s h0 h1 h2
    rw [bisectIter]
    simp only [bisectStep]
    split_ifs with hmid
    · exact ih _ h0 (by simpa using by linarith [h1]) (by simpa using by linarith [h1, h2])
    · exact ih _ (by simpa using by linarith [h0, h1]) (by simpa using by linarith [h1]) h2

/-- C3. Whenever `min_down_for_target_dscr` returns a number `d*`, that
down payment achieves the target: the DSCR of `compute` at `d*` is at
least the target DSCR. -/
theorem min_down_achieves_target (deal : DealInputs) (t m d : ℚ)
    (h : min_down_for_target_dscr deal t m = some d) :
    ((t : ℚ) : WithTop ℚ) ≤ (compute deal d m).dscr := by
  simp only [min_down_for_target_dscr] at h
  split_ifs at h with h1 h2
  · have h0 : (0:ℚ) = d := by simpa using h
    subst h0
    exact h2
  · have hd :
        (bisectIter deal t m 60 (0, deal.purchase_price * (4/5))).2 = d := by
      simpa using h
    subst hd
    exact bisectIter_hi_feasible deal t m 60 _ (not_lt.mp h1)

/-- C3, witness: on the all-zero deal the solver returns `some 0`, and the
DSCR there (`⊤`, no debt) meets the target 1. -/
theorem min_down_achieves_target_witness :
    (((1:ℚ) : ℚ) : WithTop ℚ) ≤ (compute dealD 0 1).dscr :=
  min_down_achieves_target dealD 1 1 0
    (by norm_num [min_down_for_target_dscr, compute, annual_payment,
      sba_guarantee_fee, dealD])

/-- C10. With a non-negative purchase price, the bisection loop keeps
`0 ≤ lo ≤ hi ≤ 0.80 × purchase_price` at every iteration, and any number
the solver returns lies in the closed interval
`[0, 0.80 × purchase_price]`. -/
theorem min_down_in_range (deal : DealInputs) (t m : ℚ)
    (hpp : 0 ≤ deal.purchase_price) :
    (∀ (k : ℕ) (lo hi : ℚ), 0 ≤ lo → lo ≤ hi →
      hi ≤ deal.purchase_price * (4/5) →
      0 ≤ (bisectIter deal t m k (lo, hi)).1 ∧
      (bisectIter deal t m k (lo, hi)).1 ≤ (bisectIter deal t m k (lo, hi)).2 ∧
      (bisectIter deal t m k (lo, hi)).2 ≤ deal.purchase_price * (4/5)) ∧
    (∀ d : ℚ, min_down_for_target_dscr deal t m = some d →
      0 ≤ d ∧ d ≤ deal.purchase_price * (4/5)) := by
  constructor
  · intro k lo hi h0 h1 h2
    exact bisectIter_bounds deal t m _ k (lo, hi) h0 h1 h2
  · intro d h
    simp only [min_down_for_target_dscr] at h
    split_ifs at h with h1 h2
    · have h0 : (0:ℚ) = d := by simpa using h
      subst h0
      exact ⟨le_refl 0, by linarith⟩
    · have hd :
          (bisectIter deal t m 60 (0, deal.purchase_price * (4/5))).2 = d := by
        simpa using h
      subst hd
      have hb := bisectIter_bounds deal t m (deal.purchase_price * (4/5)) 60
        (0, deal.purchase_price * (4/5)) (le_refl 0) (by simpa using by linarith)
        (by simp)
      exact ⟨le_trans hb.1 hb.2.1, hb.2.2⟩

/-- C10, witness: applied to the all-zero deal, where the solver returns
`some 0` and the interval is `[0, 0]`. -/
theorem min_down_in_range_witness :
    0 ≤ (0:ℚ) ∧ (0:ℚ) ≤ dealD.purchase_price * (4/5) :=
  (min_down_in_range dealD 1 1 (by norm_num [dealD])).2 0
    (by norm_num [min_down_for_target_dscr, compute, annual_payment,
      sba_guarantee_fee, dealD])

/-! ## C4: the loan clamp -/

/-- C4, counterexample.  On `dealC` (working capital 50) a down payment
of 100 covers the whole purchase price, so the bank base loan clamps to
0 — but the working capital is still capitalized into the bank loan, so
the bank annual payment is `50 / 10 = 5`, not 0. -/
theorem loan_clamp_counterexample :
    dealC.purchase_price ≤ (100:ℚ) + dealC.purchase_price * dealC.seller_note_pct ∧
    (compute dealC 100 1).bank_base_loan = 0 ∧
    (compute dealC 100 1).bank_annual = 5 ∧
    ¬ (compute dealC 100 1).bank_annual = 0 := by
  refine ⟨by norm_num [dealC], ?_, ?_, ?_⟩ <;>
    norm_num [compute, annual_payment, sba_guarantee_fee, dealC]

/-- C4, amended.  If `downPayment + sellerNote ≥ purchasePrice` then the
bank base loan is 0, and — provided the working capital is 0, since the
code capitalizes working capital into the bank loan — the bank annual
payment is 0 as well. -/
theorem loan_clamp (deal : DealInputs) (d m : ℚ)
    (h : deal.purchase_price ≤ d + deal.purchase_price * deal.seller_note_pct) :
    (compute deal d m).bank_base_loan = 0 ∧
    (deal.working_cap = 0 → (compute deal d m).bank_annual = 0) := by
  have hb : bankBaseLoanOf deal d = 0 := by
    simp only [bankBaseLoanOf, sellerNoteOf]
    split_ifs with hlt
    · rfl
    · linarith [not_lt.mp hlt]
  constructor
  · rw [compute_bank_base_loan]
    exact hb
  · intro hwc
    rw [compute_bank_annual]
    unfold bankAnnualOf
    have hl : bankLoanOf deal d = 0 := by
      unfold bankLoanOf sba_guarantee_fee
      rw [hb, hwc]
      ring
    rw [hl]
    simp [annual_payment]

/-- C4, witness: the all-zero deal with a zero down payment (the clamp
hypothesis holds with equality and the working capital is 0). -/
theorem loan_clamp_witness :
    (compute dealD 0 1).bank_base_loan = 0 ∧
    (dealD.working_cap = 0 → (compute dealD 0 1).bank_annual = 0) :=
  loan_clamp dealD 0 1 (by norm_num [dealD])

/-! ## C7: with a positive rate, total payments exceed the principal -/

lemma annuity_key (r : ℚ) (hr : 0 < r) :
    ∀ n : ℕ, 1 ≤ n → (1 + r) ^ n - 1 < (n : ℚ) * r * (1 + r) ^ n := by
  intro n hn
  induction n with
  | zero => omega
  | succ k ih =>
    rcases Nat.eq_zero_or_pos k with hk | hk
    · subst hk
      push_cast
      nlinarith
    · have ihk := ih hk
      have hx1 : (1:ℚ) ≤ (1 + r) ^ k := one_le_pow₀ (by linarith)
      rw [pow_succ]
      push_cast
      nlinarith [mul_lt_mul_of_pos_right ihk (show (0:ℚ) < 1 + r by linarith),
        mul_le_mul_of_nonneg_left hx1 (le_of_lt hr)]

/-- C7. For a positive principal, a positive annual rate and a term of at
least one year, the total of the level payments strictly exceeds the
principal: `annual_payment p r n * n > p`. -/
theorem annual_payment_total_gt (p r : ℚ) (n : ℕ)
    (hp : 0 < p) (hr : 0 < r) (hn : 1 ≤ n) :
    p < annual_payment p r n * (n : ℚ) := by
  have hx : (1:ℚ) < (1 + r) ^ n :=
    one_lt_pow₀ (by linarith) (by omega)
  unfold annual_payment
  rw [if_neg (not_le.mpr hp), if_neg (ne_of_gt hr)]
  have key := annuity_key r hr n hn
  rw [div_mul_eq_mul_div, lt_div_iff₀ (by linarith)]
  nlinarith [mul_lt_mul_of_pos_left key hp]

/-- C7, witness: `annual_payment 100 (1/10) 1 = 110 > 100`. -/
theorem annual_payment_total_gt_witness :
    (0:ℚ) < 100 ∧ (100:ℚ) < annual_payment 100 (1/10) 1 * ((1:ℕ) : ℚ) :=
  ⟨by norm_num, annual_payment_total_gt 100 (1/10) 1 (by norm_num)
    (by norm_num) (by norm_num)⟩

/-! ## C6: the verdict thresholds -/

/-- C6, counterexample.  The source's banner strings carry a (mojibake)
emoji suffix, so `verdict` never returns the bare string `"SBA-Ready"`,
even at a DSCR of 2 ≥ 1.25. -/
theorem verdict_plain_label_counterexample :
    ((5/4 : ℚ) : WithTop ℚ) ≤ ((2:ℚ) : WithTop ℚ) ∧
    verdict ((2:ℚ) : WithTop ℚ) ≠ "SBA-Ready" := by
  have h : ((5/4 : ℚ) : WithTop ℚ) ≤ ((2:ℚ) : WithTop ℚ) := by
    rw [WithTop.coe_le_coe]; norm_num
  refine ⟨h, ?_⟩
  rw [verdict, if_pos h]
  decide

/-- C6, amended.  With the banner strings exactly as they appear in the
source (label plus emoji suffix), `verdict` returns the SBA-Ready banner
exactly when `dscr ≥ 1.25`, the tight banner exactly when
`1.10 ≤ dscr < 1.25`, and the risky banner exactly when `dscr < 1.10`. -/
theorem verdict_thresholds (d : WithTop ℚ) :
    (verdict d = "SBA-Ready ðŸŸ¢" ↔ ((5/4 : ℚ) : WithTop ℚ) ≤ d) ∧
    (verdict d = "Tight but possible ðŸŸ¡" ↔
      ((11/10 : ℚ) : WithTop ℚ) ≤ d ∧ d < ((5/4 : ℚ) : WithTop ℚ)) ∧
    (verdict d = "Risky ðŸ”´" ↔ d < ((11/10 : ℚ) : WithTop ℚ)) := by
  have hlt : ((11/10 : ℚ) : WithTop ℚ) < ((5/4 : ℚ) : WithTop ℚ) := by
    rw [WithTop.coe_lt_coe]; norm_num
  unfold verdict
  split_ifs with h1 h2
  · refine ⟨⟨fun _ => h1, fun _ => rfl⟩, ?_, ?_⟩
    · constructor
      · intro hs; exact absurd hs (by decide)
      · rintro ⟨-, hlt2⟩; exact absurd h1 (not_le.mpr hlt2)
    · constructor
      · intro hs; exact absurd hs (by decide)
      · intro hlt2; exact absurd h1 (not_le.mpr (lt_trans hlt2 hlt))
  · refine ⟨?_, ⟨fun _ => ⟨h2, not_le.mp h1⟩, fun _ => rfl⟩, ?_⟩
    · constructor
      · intro hs; exact absurd hs (by decide)
      · intro hge; exact absurd hge h1
    · constructor
      · intro hs; exact absurd hs (by decide)
      · intro hlt2; exact absurd h2 (not_le.mpr hlt2)
  · refine ⟨?_, ?_, ⟨fun _ => not_le.mp h2, fun _ => rfl⟩⟩
    · constructor
      · intro hs; exact absurd hs (by decide)
      · intro hge; exact absurd hge h1
    · constructor
      · intro hs; exact absurd hs (by decide)
      · rintro ⟨hge, -⟩; exact absurd hge h2

/-! ## C9: every division in `compute` is guarded -/

lemma annual_payment_checked_eq (p r : ℚ) (n : ℕ)
    (hn : 1 ≤ n) (hr : 0 ≤ r) :
    annual_payment_checked p r n = some (annual_payment p r n) := by
  unfold annual_payment_checked annual_payment
  split_ifs with h0 hr0 hcast hden
  · rfl
  · exact absurd (Nat.cast_eq_zero.mp hcast) (by omega)
  · rfl
  · exfalso
    have hrpos : 0 < r := lt_of_le_of_ne hr (Ne.symm hr0)
    have hx : (1:ℚ) < (1 + r) ^ n := one_lt_pow₀ (by linarith) (by omega)
    linarith
  · rfl

set_option maxHeartbeats 1000000 in
/-- C9. Under the preconditions that both term fields are positive and
both rate fields are non-negative, the division-checked evaluator never
hits a zero denominator and agrees with `compute` on every input: the
straight-line division sees a positive `years`, the annuity denominator
`(1+r)^n − 1` is nonzero whenever that branch is reached, and the `dscr`
and `coc` divisions are guarded structurally. -/
theorem compute_checked_total (deal : DealInputs) (d m : ℚ)
    (hbt : 1 ≤ deal.bank_term) (hst : 1 ≤ deal.seller_note_term)
    (hbi : 0 ≤ deal.bank_interest) (hsi : 0 ≤ deal.seller_note_interest) :
    compute_checked deal d m = some (compute deal d m) := by
  simp only [compute_checked]
  rw [annual_payment_checked_eq _ _ _ hbt hbi]
  by_cases hsn : 0 < deal.purchase_price * deal.seller_note_pct
  · rw [if_pos hsn, annual_payment_checked_eq _ _ _ hst hsi]
    simp only [compute, if_pos hsn]
  · rw [if_neg hsn]
    simp only [compute, if_neg hsn]

/-- C9, witness: the all-zero deal (terms 1, rates 0) evaluates without
hitting any unchecked division. -/
theorem compute_checked_total_witness :
    compute_checked dealD 0 1 = some (compute dealD 0 1) :=
  compute_checked_total dealD 0 1 (by norm_num [dealD]) (by norm_num [dealD])
    (by norm_num [dealD]) (by norm_num [dealD])

/-! ## C8: the two source variants implement the same core -/

lemma clamp_eq (a : ℚ) : max a 0 = if a < 0 then 0 else a := by
  rcases le_or_lt 0 a with h | h
  · rw [if_neg (not_lt.mpr h), max_eq_left h]
  · rw [if_pos h, max_eq_right (le_of_lt h)]

lemma app_dscr_at_eq (pp sde ms snp sni : ℚ) (snt : ℕ) (bi : ℚ) (bt : ℕ)
    (wc g m down : ℚ) :
    App.dscr_at pp sde ms snp sni snt bi bt wc g m down =
      (compute ⟨pp, sde, ms, snp, sni, snt, bi, bt, wc, g⟩ down m).dscr := by
  simp only [App.dscr_at, App.compute, compute, App.annual_payment,
    annual_payment, App.sba_guarantee_fee, sba_guarantee_fee, clamp_eq]

lemma app_step_eq (pp sde ms snp sni : ℚ) (snt : ℕ) (bi : ℚ) (bt : ℕ)
    (wc g t m : ℚ) (s : ℚ × ℚ) :
    App.bisectStep pp sde ms snp sni snt bi bt wc g t m s =
      bisectStep ⟨pp, sde, ms, snp, sni, snt, bi, bt, wc, g⟩ t m s := by
  simp only [App.bisectStep, bisectStep, app_dscr_at_eq]

lemma app_iter_eq (pp sde ms snp sni : ℚ) (snt : ℕ) (bi : ℚ) (bt : ℕ)
    (wc g t m : ℚ) :
    ∀ (k : ℕ) (s : ℚ × ℚ),
      App.bisectIter pp sde ms snp sni snt bi bt wc g t m k s =
        bisectIter ⟨pp, sde, ms, snp, sni, snt, bi, bt, wc, g⟩ t m k s := by
  intro k
  induction k with
  | zero => intro s; rfl
  | succ n ih =>
    intro s
    rw [App.bisectIter, bisectIter, app_step_eq]
    exact ih _

/-- C8. For identical inputs, `compute` in `app.py` and `compute` in
`deal_analyzer.py` agree on every shared output field, and
`min_down_for_target` in `app.py` returns the same result (number or
`None`) as `min_down_for_target_dscr` in `deal_analyzer.py`. -/
theorem app_matches_cli (pp sde ms dp snp sni : ℚ) (snt : ℕ) (bi : ℚ)
    (bt : ℕ) (wc g t m : ℚ) :
    (App.compute pp sde ms dp snp sni snt bi bt wc g m).normalized_earnings =
      (compute ⟨pp, sde, ms, snp, sni, snt, bi, bt, wc, g⟩ dp m).normalized_earnings ∧
    (App.compute pp sde ms dp snp sni snt bi bt wc g m).seller_note =
      (compute ⟨pp, sde, ms, snp, sni, snt, bi, bt, wc, g⟩ dp m).seller_note ∧
    (App.compute pp sde ms dp snp sni snt bi bt wc g m).bank_base_loan =
      (compute ⟨pp, sde, ms, snp, sni, snt, bi, bt, wc, g⟩ dp m).bank_base_loan ∧
    (App.compute pp sde ms dp snp sni snt bi bt wc g m).fee =
      (compute ⟨pp, sde, ms, snp, sni, snt, bi, bt, wc, g⟩ dp m).fee ∧
    (App.compute pp sde ms dp snp sni snt bi bt wc g m).bank_loan =
      (compute ⟨pp, sde, ms, snp, sni, snt, bi, bt, wc, g⟩ dp m).bank_loan ∧
    (App.compute pp sde ms dp snp sni snt bi bt wc g m).bank_annual =
      (compute ⟨pp, sde, ms, snp, sni, snt, bi, bt, wc, g⟩ dp m).bank_annual ∧
    (App.compute pp sde ms dp snp sni snt bi bt wc g m).seller_annual =
      (compute ⟨pp, sde, ms, snp, sni, snt, bi, bt, wc, g⟩ dp m).seller_annual ∧
    (App.compute pp sde ms dp snp sni snt bi bt wc g m).total_debt =
      (compute ⟨pp, sde, ms, snp, sni, snt, bi, bt, wc, g⟩ dp m).total_annual_debt ∧
    (App.compute pp sde ms dp snp sni snt bi bt wc g m).dscr =
      (compute ⟨pp, sde, ms, snp, sni, snt, bi, bt, wc, g⟩ dp m).dscr ∧
    (App.compute pp sde ms dp snp sni snt bi bt wc g m).after_debt =
      (compute ⟨pp, sde, ms, snp, sni, snt, bi, bt, wc, g⟩ dp m).after_debt ∧
    App.min_down_for_target pp sde ms snp sni snt bi bt wc g t m =
      min_down_for_target_dscr ⟨pp, sde, ms, snp, sni, snt, bi, bt, wc, g⟩ t m := by
  refine ⟨?_, ?_, ?_, ?_, ?_, ?_, ?_, ?_, ?_, ?_, ?_⟩ <;>
    simp only [App.min_down_for_target, min_down_for_target_dscr,
      app_dscr_at_eq, app_iter_eq, App.compute, compute, App.annual_payment,
      annual_payment, App.sba_guarantee_fee, sba_guarantee_fee, clamp_eq]
